import Mathlib

/-!
# Verification of the rlmdb resource-lifecycle and type-safety layer

Shallow embedding of the Rust sources under `src/` (error.rs, txn.rs,
dbenv.rs, db.rs).  The storage engine itself (LMDB) is an external
collaborator: engine calls are represented as trace events, and the
engine's replies (status codes, returned pointers, returned buffers) are
supplied as explicit oracle inputs to the embedded functions.  Byte
buffers are `List Nat`, raw C pointers are `Nat` with `0` for null,
signed C status codes are `Int`, and C bit-flag words are `Nat`.
-/

namespace Rlmdb

/-! ## Engine status codes

The numeric values are the LMDB return codes from the vendored engine
header (`lmdb.h`, exposed through the generated `sys` bindings). -/

def MDB_SUCCESS : Int := 0
def MDB_KEYEXIST : Int := -30799
def MDB_NOTFOUND : Int := -30798
def MDB_PAGE_NOTFOUND : Int := -30797
def MDB_CORRUPTED : Int := -30796
def MDB_PANIC : Int := -30795
def MDB_VERSION_MISMATCH : Int := -30794
def MDB_INVALID : Int := -30793
def MDB_MAP_FULL : Int := -30792
def MDB_DBS_FULL : Int := -30791
def MDB_READERS_FULL : Int := -30790
def MDB_TLS_FULL : Int := -30789
def MDB_TXN_FULL : Int := -30788
def MDB_CURSOR_FULL : Int := -30787
def MDB_PAGE_FULL : Int := -30786
def MDB_MAP_RESIZED : Int := -30785
def MDB_INCOMPATIBLE : Int := -30784
def MDB_BAD_RSLOT : Int := -30783
def MDB_BAD_TXN : Int := -30782
def MDB_BAD_VALSIZE : Int := -30781
def MDB_BAD_DBI : Int := -30780

/-! ## Error taxonomy (src/error.rs) -/

/-- `MDBError` from src/error.rs: the closed enumeration of named engine
error variants. -/
inductive MDBError where
  | keyExists
  | notFound
  | pageNotFound
  | corrupted
  | mdbPanic
  | versionMismatch
  | invalid
  | mapFull
  | dbsFull
  | readersFull
  | tlsFull
  | txnFull
  | cursorFull
  | pageFull
  | mapResized
  | incompatible
  | badRslot
  | badTxn
  | badValSize
  | badDbi
deriving DecidableEq, Repr

/-- The `std::io::ErrorKind` values the crate constructs explicitly. -/
inductive IoErrorKind where
  | invalidInput
  | other
deriving DecidableEq, Repr

/-- `std::io::Error` as the crate builds it: either wrapping a raw OS
status code (`io::Error::from_raw_os_error`) or a custom error built from
an `ErrorKind` and a message (`io::Error::new`). -/
inductive IoError where
  | osCode (code : Int)
  | custom (kind : IoErrorKind) (msg : String)
deriving DecidableEq, Repr

/-- `LMDBError` from src/error.rs: engine-status variant or I/O variant. -/
inductive LMDBError where
  | mdb (e : MDBError)
  | io (e : IoError)
deriving DecidableEq, Repr

/-- `LMDBError::from_mdb_error` (src/error.rs lines 106-138): translate a
signed engine status code into `Result<(), LMDBError>`.  The Rust `match`
over integer constants is embedded as the equivalent chain of equality
tests, in source order. -/
def LMDBError.from_mdb_error (err_code : Int) : Except LMDBError Unit :=
  if err_code = MDB_SUCCESS then .ok ()
  else if err_code = MDB_KEYEXIST then .error (.mdb .keyExists)
  else if err_code = MDB_NOTFOUND then .error (.mdb .notFound)
  else if err_code = MDB_PAGE_NOTFOUND then .error (.mdb .pageNotFound)
  else if err_code = MDB_CORRUPTED then .error (.mdb .corrupted)
  else if err_code = MDB_PANIC then .error (.mdb .mdbPanic)
  else if err_code = MDB_VERSION_MISMATCH then .error (.mdb .versionMismatch)
  else if err_code = MDB_INVALID then .error (.mdb .invalid)
  else if err_code = MDB_MAP_FULL then .error (.mdb .mapFull)
  else if err_code = MDB_DBS_FULL then .error (.mdb .dbsFull)
  else if err_code = MDB_READERS_FULL then .error (.mdb .readersFull)
  else if err_code = MDB_TLS_FULL then .error (.mdb .tlsFull)
  else if err_code = MDB_TXN_FULL then .error (.mdb .txnFull)
  else if err_code = MDB_CURSOR_FULL then .error (.mdb .cursorFull)
  else if err_code = MDB_PAGE_FULL then .error (.mdb .pageFull)
  else if err_code = MDB_MAP_RESIZED then .error (.mdb .mapResized)
  else if err_code = MDB_INCOMPATIBLE then .error (.mdb .incompatible)
  else if err_code = MDB_BAD_RSLOT then .error (.mdb .badRslot)
  else if err_code = MDB_BAD_TXN then .error (.mdb .badTxn)
  else if err_code = MDB_BAD_VALSIZE then .error (.mdb .badValSize)
  else if err_code = MDB_BAD_DBI then .error (.mdb .badDbi)
  else .error (.io (.osCode err_code))

/-- The twenty named engine status codes handled by the `match` in
`from_mdb_error`. -/
def knownMdbCodes : List Int :=
  [MDB_KEYEXIST, MDB_NOTFOUND, MDB_PAGE_NOTFOUND, MDB_CORRUPTED, MDB_PANIC,
   MDB_VERSION_MISMATCH, MDB_INVALID, MDB_MAP_FULL, MDB_DBS_FULL,
   MDB_READERS_FULL, MDB_TLS_FULL, MDB_TXN_FULL, MDB_CURSOR_FULL,
   MDB_PAGE_FULL, MDB_MAP_RESIZED, MDB_INCOMPATIBLE, MDB_BAD_RSLOT,
   MDB_BAD_TXN, MDB_BAD_VALSIZE, MDB_BAD_DBI]

/-! ## Flag words (src/txn.rs, src/db.rs, src/dbenv.rs)

Bitflag sets are embedded as the `Nat` word their `.bits()` call produces
at the engine boundary.  Numeric values are from the vendored engine
header. -/

def MDB_RDONLY_BIT : Nat := 0x20000

/-- `TransactionFlags` (src/txn.rs): only `MDB_RDONLY` is exposed. -/
def TransactionFlags.MDB_RDONLY : Nat := MDB_RDONLY_BIT

def TransactionFlags.emptyBits : Nat := 0

def PutFlags.MDB_NODUPDATA : Nat := 0x20
def PutFlags.MDB_NOOVERWRITE : Nat := 0x10
def PutFlags.MDB_RESERVE : Nat := 0x10000
def PutFlags.MDB_APPEND : Nat := 0x20000
def PutFlags.MDB_APPENDDUP : Nat := 0x40000

def PutFlags.emptyBits : Nat := 0

/-- `impl Default for PutFlags` (src/txn.rs lines 74-78): the default put
flag set is `PutFlags::empty()`. -/
def PutFlags.defaultBits : Nat := PutFlags.emptyBits

def DBFlags.MDB_CREATE : Nat := 0x40000

/-- `impl Default for DBFlags` (src/db.rs lines 60-64). -/
def DBFlags.defaultBits : Nat := DBFlags.MDB_CREATE

def EnvFlags.MDB_NOSUBDIR : Nat := 0x4000

/-- `impl Default for EnvFlags` (src/dbenv.rs lines 26-30). -/
def EnvFlags.defaultBits : Nat := EnvFlags.MDB_NOSUBDIR

/-- `TransactionType` (src/txn.rs lines 20-24). -/
inductive TransactionType where
  | readOnly
  | readWrite
deriving DecidableEq, Repr

/-! ## C strings

`ffi::CString::new` succeeds exactly when the byte sequence has no
embedded null byte; on success the bytes pass through unchanged. -/

/-- `CString::new` on a byte buffer: `none` models the `NulError` case. -/
def cstringNew (bytes : List Nat) : Option (List Nat) :=
  if bytes.contains 0 then none else some bytes

/-! ## Engine call traces

Each embedded operation returns, besides its result, the list of raw
engine calls it issued, in order. -/

/-- One raw call into the engine. -/
inductive EngineCall where
  | envCreate
  | envSetMapsize (size : Nat)
  | envSetMaxreaders (n : Nat)
  | envSetMaxdbs (n : Nat)
  | envOpen (path : List Nat) (flags : Nat) (mode : Nat)
  | txnBegin (parent : Nat) (flags : Nat)
  | txnCommitCall (ptr : Nat)
  | txnAbortCall (ptr : Nat)
  | dbiOpen (name : Option (List Nat)) (flags : Nat)
  | getCall (dbi : Nat) (key : List Nat)
  | putCall (dbi : Nat) (key : List Nat) (value : List Nat) (flags : Nat)
  | delCall (dbi : Nat) (key : List Nat) (data : Option (List Nat))
deriving DecidableEq, Repr

/-! ## Transaction (src/txn.rs) -/

/-- `Transaction::new` (src/txn.rs lines 82-113).  The engine's reply to
`mdb_txn_begin` is the oracle pair `(beginStatus, txnPtr)` (`txnPtr = 0`
models a null pointer written through the out-parameter).  On success the
result carries the `NonNull` pointer and the type tag stored in the
`Transaction` value. -/
def Transaction.new (parentPtr : Nat) (txn_type : TransactionType)
    (beginStatus : Int) (txnPtr : Nat) :
    Except LMDBError (Nat × TransactionType) × List EngineCall :=
  let flags := match txn_type with
    | .readOnly => TransactionFlags.MDB_RDONLY
    | .readWrite => TransactionFlags.emptyBits
  let trace := [EngineCall.txnBegin parentPtr flags]
  match LMDBError.from_mdb_error beginStatus with
  | .error e => (.error e, trace)
  | .ok _ =>
    if txnPtr = 0 then
      (.error (.io (.custom .other
        "mdb_txn_begin succeeded but returned a null transaction pointer")),
       trace)
    else
      (.ok (txnPtr, txn_type), trace)

/-- Runtime end-of-life state of one `Transaction` value: whether
`mem::forget` has run (suppressing the `Drop` glue) and the engine
release calls issued so far on its handle. -/
structure TxnRun where
  ptr : Nat
  forgotten : Bool
  trace : List EngineCall
deriving DecidableEq, Repr

/-- A freshly created transaction value: drop glue armed, no release
calls issued. -/
def txnInit (ptr : Nat) : TxnRun := ⟨ptr, false, []⟩

/-- `Transaction::commit` (src/txn.rs lines 115-123): take the pointer out
of the `ManuallyDrop`, call `mdb_txn_commit` on it, `mem::forget(self)`,
and return the mapped engine status. -/
def Transaction.commit (t : TxnRun) (commitStatus : Int) :
    TxnRun × Except LMDBError Unit :=
  (⟨t.ptr, true, t.trace ++ [EngineCall.txnCommitCall t.ptr]⟩,
   LMDBError.from_mdb_error commitStatus)

/-- `Transaction::abort` (src/txn.rs lines 125-131): take the pointer out,
call `mdb_txn_abort` on it, `mem::forget(self)`.  No value is returned to
the caller: the codomain has no error channel. -/
def Transaction.abort (t : TxnRun) : TxnRun × Unit :=
  (⟨t.ptr, true, t.trace ++ [EngineCall.txnAbortCall t.ptr]⟩, ())

/-- `impl Drop for Transaction` (src/txn.rs lines 227-231) combined with
Rust's drop rules: the glue runs at end of scope only if the value was not
consumed (`mem::forget` suppresses it), and then calls `mdb_txn_abort`. -/
def Transaction.dropGlue (t : TxnRun) : TxnRun :=
  if t.forgotten then t
  else ⟨t.ptr, true, t.trace ++ [EngineCall.txnAbortCall t.ptr]⟩

/-- The three ways a `Transaction` value can reach end of life; Rust's
move semantics make them mutually exclusive (`commit` and `abort` take
`self` by value). -/
inductive ConsumePath where
  | viaCommit (commitStatus : Int)
  | viaAbort
  | viaDrop
deriving DecidableEq, Repr

/-- Full end-of-life execution of one transaction value: the chosen
consuming call (if any) followed by the end-of-scope drop glue. -/
def txnExecution (ptr : Nat) : ConsumePath → TxnRun
  | .viaCommit st => Transaction.dropGlue (Transaction.commit (txnInit ptr) st).1
  | .viaAbort => Transaction.dropGlue (Transaction.abort (txnInit ptr)).1
  | .viaDrop => Transaction.dropGlue (txnInit ptr)

/-- Is this engine call a release of the transaction handle `ptr`? -/
def isReleaseOf (ptr : Nat) : EngineCall → Bool
  | .txnCommitCall p => p = ptr
  | .txnAbortCall p => p = ptr
  | _ => false

/-- The engine's reply to `mdb_get`: a status code and, on success, the
returned byte buffer (`MDB_val` out-parameter). -/
structure MdbGetReply where
  status : Int
  data : List Nat
deriving DecidableEq, Repr

/-- `Transaction::get` (src/txn.rs lines 133-153): issue `mdb_get`, map
the status through `from_mdb_error` with `?`, then unconditionally wrap
the decoded buffer in `Some`.  `decode` embeds `V::from(&[u8])`. -/
def Transaction.get {V : Type} (decode : List Nat → V)
    (dbi : Nat) (key : List Nat) (reply : MdbGetReply) :
    Except LMDBError (Option V) × List EngineCall :=
  let trace := [EngineCall.getCall dbi key]
  match LMDBError.from_mdb_error reply.status with
  | .error e => (.error e, trace)
  | .ok _ => (.ok (some (decode reply.data)), trace)

/-- `Transaction::put` (src/txn.rs lines 155-186): resolve the flag word
(`flags.unwrap_or(PutFlags::default())`), issue `mdb_put` with the encoded
key and value, and map the engine status.  The transaction's type tag is
carried to show the code never consults it here. -/
def Transaction.put (txn_type : TransactionType) (dbi : Nat)
    (key data : List Nat) (flags : Option Nat) (putStatus : Int) :
    Except LMDBError Unit × List EngineCall :=
  let fl := flags.getD PutFlags.defaultBits
  (LMDBError.from_mdb_error putStatus, [EngineCall.putCall dbi key data fl])

/-- `Transaction::delete` (src/txn.rs lines 188-213): issue `mdb_del` with
the encoded key and optional data, and map the engine status.  As with
`put`, the type tag is never consulted. -/
def Transaction.delete (txn_type : TransactionType) (dbi : Nat)
    (key : List Nat) (data : Option (List Nat)) (delStatus : Int) :
    Except LMDBError Unit × List EngineCall :=
  (LMDBError.from_mdb_error delStatus, [EngineCall.delCall dbi key data])

/-! ## Environment builder (src/dbenv.rs) -/

/-- `DBEnvBuilder` (src/dbenv.rs lines 147-158): accumulated
configuration.  `file_mode` holds the POSIX mode bits of the stored
`fs::Permissions`. -/
structure DBEnvBuilder where
  db_path : List Nat
  file_mode : Option Nat
  map_size : Option Nat
  max_readers : Option Nat
  max_dbs : Option Nat
deriving DecidableEq, Repr

/-- `DBEnvBuilder::new` (src/dbenv.rs lines 161-169). -/
def DBEnvBuilder.new (path : List Nat) : DBEnvBuilder :=
  ⟨path, none, none, none, none⟩

/-- `DBEnvBuilder::set_map_size` (src/dbenv.rs lines 176-179). -/
def DBEnvBuilder.set_map_size (b : DBEnvBuilder) (size : Nat) : DBEnvBuilder :=
  { b with map_size := some size }

/-- `DBEnvBuilder::set_max_readers` (src/dbenv.rs lines 181-184). -/
def DBEnvBuilder.set_max_readers (b : DBEnvBuilder) (n : Nat) : DBEnvBuilder :=
  { b with max_readers := some n }

/-- `DBEnvBuilder::set_max_dbs` (src/dbenv.rs lines 186-189). -/
def DBEnvBuilder.set_max_dbs (b : DBEnvBuilder) (n : Nat) : DBEnvBuilder :=
  { b with max_dbs := some n }

/-- The engine's replies to the calls `DBEnvBuilder::open` can issue, as
an oracle.  `createdPtr = 0` models `mdb_env_create` writing a null
pointer through its out-parameter. -/
structure EnvOracle where
  createStatus : Int
  createdPtr : Nat
  mapsizeStatus : Int
  maxreadersStatus : Int
  maxdbsStatus : Int
  openStatus : Int
deriving DecidableEq, Repr

/-- `DBEnvBuilder::open` (src/dbenv.rs lines 192-250), in source order:
build the path C string (failing with an invalid-input I/O error on an
embedded null, before any engine call); `mdb_env_create`; defensive null
check on the returned handle; `mdb_env_set_mapsize` /
`mdb_env_set_maxreaders` / `mdb_env_set_maxdbs`, each exactly when the
corresponding option was set, each status-checked; finally `mdb_env_open`
with the flag word (default `MDB_NOSUBDIR`) and the file mode (default
`0o644`).  The `as u32` casts on the reader and db counts are the
reductions modulo `2^32`.  On success the environment handle is
returned. -/
def DBEnvBuilder.open (b : DBEnvBuilder) (flags : Option Nat)
    (eng : EnvOracle) : Except LMDBError Nat × List EngineCall :=
  let fl := flags.getD EnvFlags.defaultBits
  match cstringNew b.db_path with
  | none =>
    (.error (.io (.custom .invalidInput "Invalid path for LMDB environment")), [])
  | some path_cstr =>
    let t0 := [EngineCall.envCreate]
    match LMDBError.from_mdb_error eng.createStatus with
    | .error e => (.error e, t0)
    | .ok _ =>
      if eng.createdPtr = 0 then
        (.error (.io (.custom .other
          "mdb_env_create succeeded but returned a null environment pointer")),
         t0)
      else
        let (r1, t1) := match b.map_size with
          | none => (Except.ok (), t0)
          | some sz => (LMDBError.from_mdb_error eng.mapsizeStatus,
                        t0 ++ [EngineCall.envSetMapsize sz])
        match r1 with
        | .error e => (.error e, t1)
        | .ok _ =>
          let (r2, t2) := match b.max_readers with
            | none => (Except.ok (), t1)
            | some n => (LMDBError.from_mdb_error eng.maxreadersStatus,
                         t1 ++ [EngineCall.envSetMaxreaders (n % 2 ^ 32)])
          match r2 with
          | .error e => (.error e, t2)
          | .ok _ =>
            let (r3, t3) := match b.max_dbs with
              | none => (Except.ok (), t2)
              | some n => (LMDBError.from_mdb_error eng.maxdbsStatus,
                           t2 ++ [EngineCall.envSetMaxdbs (n % 2 ^ 32)])
            match r3 with
            | .error e => (.error e, t3)
            | .ok _ =>
              let file_mode := b.file_mode.getD 0o644
              let t4 := t3 ++ [EngineCall.envOpen path_cstr fl file_mode]
              match LMDBError.from_mdb_error eng.openStatus with
              | .error e => (.error e, t4)
              | .ok _ => (.ok eng.createdPtr, t4)

/-! ## Database handle opening (src/dbenv.rs lines 87-121) -/

/-- `DBEnv::open_db_internal`: resolve the flag word (default
`MDB_CREATE`), convert the optional name to a C string — failing with an
invalid-input I/O error before any engine call when the name has an
embedded null — then issue `mdb_dbi_open` and, on success, return the
database identifier the engine wrote together with the name.  The
engine's reply is the oracle pair `(openStatus, dbiOut)`. -/
def DBEnv.open_db_internal (name : Option (List Nat)) (flags : Option Nat)
    (openStatus : Int) (dbiOut : Nat) :
    Except LMDBError (Nat × Option (List Nat)) × List EngineCall :=
  let fl := flags.getD DBFlags.defaultBits
  let name_cstr : Except LMDBError (Option (List Nat)) :=
    match name with
    | none => .ok none
    | some n =>
      match cstringNew n with
      | none => .error (.io (.custom .invalidInput "Invalid database name"))
      | some cs => .ok (some cs)
  match name_cstr with
  | .error e => (.error e, [])
  | .ok cs =>
    let trace := [EngineCall.dbiOpen cs fl]
    match LMDBError.from_mdb_error openStatus with
    | .error e => (.error e, trace)
    | .ok _ => (.ok (dbiOut, cs), trace)

/-- `DBEnv::open_named_db` (src/dbenv.rs lines 73-85): delegate to
`open_db_internal` with `Some(name)`. -/
def DBEnv.open_named_db (name : List Nat) (flags : Option Nat)
    (openStatus : Int) (dbiOut : Nat) :
    Except LMDBError (Nat × Option (List Nat)) × List EngineCall :=
  DBEnv.open_db_internal (some name) flags openStatus dbiOut

/-! ## Engine store semantics (for the round-trip property)

Modelled from the spec: the storage engine's get/put/commit data
semantics are outside `src/` (the engine is an external collaborator);
§1 and §8 describe it as a transactional key-value store where a
committed `put` is visible to a later lookup.  The store maps a
`(dbi, key)` pair to the value bytes; a transaction holds an overlay of
its own writes over the committed store. -/

/-- A flat key-value store: newest binding first. -/
abbrev Store := List ((Nat × List Nat) × List Nat)

/-- Modelled from the spec: the engine records the bytes passed to
`mdb_put` under `(dbi, key)`, newest binding shadowing older ones. -/
def storePut (s : Store) (dbi : Nat) (key value : List Nat) : Store :=
  ((dbi, key), value) :: s

/-- Modelled from the spec: `mdb_get` looks up the newest binding of
`(dbi, key)`. -/
def storeLookup (s : Store) (dbi : Nat) (key : List Nat) :
    Option (List Nat) :=
  match s.find? (fun e => e.1 = (dbi, key)) with
  | some e => some e.2
  | none => none

/-- Modelled from the spec: the engine's reply to `mdb_get` — status 0
with the stored bytes when the key is bound, `MDB_NOTFOUND` otherwise. -/
def engineGetReply (s : Store) (dbi : Nat) (key : List Nat) : MdbGetReply :=
  match storeLookup s dbi key with
  | some v => ⟨MDB_SUCCESS, v⟩
  | none => ⟨MDB_NOTFOUND, []⟩

/-- Modelled from the spec: `mdb_txn_commit` folds the transaction's
writes (newest first) over the committed store. -/
def commitStore (txnWrites committed : Store) : Store :=
  txnWrites ++ committed

/-- Apply the `mdb_put` calls of an engine-call trace to a transaction's
write overlay.  Modelled from the spec: the engine records each put's key
and value bytes in the transaction's uncommitted state. -/
def applyPutCalls (w : Store) : List EngineCall → Store
  | [] => w
  | .putCall dbi k v _ :: rest => applyPutCalls (storePut w dbi k v) rest
  | _ :: rest => applyPutCalls w rest

/-! ## Theorems -/

/-- C3: the error mapper is a pure total function on status codes: zero
maps to success, each of the twenty named engine codes maps to its named
variant, and every other non-zero code maps to an I/O error carrying the
raw code.  (Totality is by construction: `from_mdb_error` is a total Lean
function.)  The catch-all case is stated first, the twenty-one fixed
mappings after it. -/
theorem from_mdb_error_spec :
    (∀ c : Int, c ≠ 0 → c ∉ knownMdbCodes →
      LMDBError.from_mdb_error c = .error (.io (.osCode c))) ∧
    LMDBError.from_mdb_error 0 = .ok () ∧
    LMDBError.from_mdb_error MDB_KEYEXIST = .error (.mdb .keyExists) ∧
    LMDBError.from_mdb_error MDB_NOTFOUND = .error (.mdb .notFound) ∧
    LMDBError.from_mdb_error MDB_PAGE_NOTFOUND = .error (.mdb .pageNotFound) ∧
    LMDBError.from_mdb_error MDB_CORRUPTED = .error (.mdb .corrupted) ∧
    LMDBError.from_mdb_error MDB_PANIC = .error (.mdb .mdbPanic) ∧
    LMDBError.from_mdb_error MDB_VERSION_MISMATCH = .error (.mdb .versionMismatch) ∧
    LMDBError.from_mdb_error MDB_INVALID = .error (.mdb .invalid) ∧
    LMDBError.from_mdb_error MDB_MAP_FULL = .error (.mdb .mapFull) ∧
    LMDBError.from_mdb_error MDB_DBS_FULL = .error (.mdb .dbsFull) ∧
    LMDBError.from_mdb_error MDB_READERS_FULL = .error (.mdb .readersFull) ∧
    LMDBError.from_mdb_error MDB_TLS_FULL = .error (.mdb .tlsFull) ∧
    LMDBError.from_mdb_error MDB_TXN_FULL = .error (.mdb .txnFull) ∧
    LMDBError.from_mdb_error MDB_CURSOR_FULL = .error (.mdb .cursorFull) ∧
    LMDBError.from_mdb_error MDB_PAGE_FULL = .error (.mdb .pageFull) ∧
    LMDBError.from_mdb_error MDB_MAP_RESIZED = .error (.mdb .mapResized) ∧
    LMDBError.from_mdb_error MDB_INCOMPATIBLE = .error (.mdb .incompatible) ∧
    LMDBError.from_mdb_error MDB_BAD_RSLOT = .error (.mdb .badRslot) ∧
    LMDBError.from_mdb_error MDB_BAD_TXN = .error (.mdb .badTxn) ∧
    LMDBError.from_mdb_error MDB_BAD_VALSIZE = .error (.mdb .badValSize) ∧
    LMDBError.from_mdb_error MDB_BAD_DBI = .error (.mdb .badDbi) := by
  refine ⟨?_, rfl, rfl, rfl, rfl, rfl, rfl, rfl, rfl, rfl, rfl, rfl, rfl,
    rfl, rfl, rfl, rfl, rfl, rfl, rfl, rfl, rfl⟩
  intro c h0 hmem
  simp only [knownMdbCodes, List.mem_cons, List.not_mem_nil, or_false,
    not_or] at hmem
  obtain ⟨h1, h2, h3, h4, h5, h6, h7, h8, h9, h10, h11, h12, h13, h14, h15,
    h16, h17, h18, h19, h20⟩ := hmem
  have h0s : c ≠ MDB_SUCCESS := by simpa [MDB_SUCCESS] using h0
  simp [LMDBError.from_mdb_error, h0s, h1, h2, h3, h4, h5, h6, h7, h8, h9,
    h10, h11, h12, h13, h14, h15, h16, h17, h18, h19, h20]

/-- Witness for C3: the unmapped non-zero code 7 maps to an I/O error
carrying the raw code. -/
theorem from_mdb_error_spec_witness :
    LMDBError.from_mdb_error 7 = .error (.io (.osCode 7)) :=
  from_mdb_error_spec.1 7 (by decide) (by decide)

/-- C1: for every transaction handle and every end-of-life path, exactly
one engine release call executes on the handle — `mdb_txn_commit` when
`commit()` was called, `mdb_txn_abort` when `abort()` was called, and
`mdb_txn_abort` from the drop glue when neither was; the consuming calls
suppress the drop glue (`mem::forget`), so no execution releases the
handle twice. -/
theorem txn_single_release (ptr : Nat) (p : ConsumePath) :
    (txnExecution ptr p).trace.filter (isReleaseOf ptr) =
      (match p with
       | .viaCommit _ => [EngineCall.txnCommitCall ptr]
       | .viaAbort => [EngineCall.txnAbortCall ptr]
       | .viaDrop => [EngineCall.txnAbortCall ptr]) := by
  cases p <;>
    simp [txnExecution, Transaction.commit, Transaction.abort,
      Transaction.dropGlue, txnInit, isReleaseOf, List.filter]

/-- C2: evaluating `Transaction::get` at the engine's not-found reply: the
code maps `MDB_NOTFOUND` through `from_mdb_error` with `?`, so the caller
receives the error `MDB(NotFound)` instead of the absence value `Ok(None)`
the spec requires; on a success status the decoded value is returned. -/
theorem get_notfound_is_error :
    (Transaction.get (fun b => b) 1 [1] ⟨MDB_NOTFOUND, []⟩).1 =
      .error (.mdb .notFound) ∧
    (Transaction.get (fun b => b) 1 [1] ⟨MDB_SUCCESS, [2]⟩).1 =
      .ok (some [2]) := by
  exact ⟨rfl, rfl⟩

/-- C4: evaluating `Transaction::put` and `Transaction::delete` on a
read-only transaction: both issue their engine call unconditionally — no
type-level rejection and no fail-fast check exists, and the result never
depends on the transaction's type tag. -/
theorem put_delete_forwarded_on_readonly :
    Transaction.put .readOnly 1 [1] [2] none MDB_SUCCESS =
      (.ok (), [EngineCall.putCall 1 [1] [2] 0]) ∧
    Transaction.delete .readOnly 1 [1] none MDB_SUCCESS =
      (.ok (), [EngineCall.delCall 1 [1] none]) ∧
    (∀ (tt tt2 : TransactionType) (dbi : Nat) (key data : List Nat)
        (flags : Option Nat) (st : Int),
      Transaction.put tt dbi key data flags st =
        Transaction.put tt2 dbi key data flags st) ∧
    (∀ (tt tt2 : TransactionType) (dbi : Nat) (key : List Nat)
        (data : Option (List Nat)) (st : Int),
      Transaction.delete tt dbi key data st =
        Transaction.delete tt2 dbi key data st) :=
  ⟨rfl, rfl, fun _ _ _ _ _ _ _ => rfl, fun _ _ _ _ _ _ => rfl⟩

/-- C5: `open_named_db` on a name with an embedded null byte returns the
invalid-input I/O error and issues no engine call; on a name without
null bytes the C-string conversion succeeds and exactly the
`mdb_dbi_open` call for that name is issued. -/
theorem open_named_db_null_check (name : List Nat) (flags : Option Nat)
    (st : Int) (dbi : Nat) :
    (name.contains 0 = true →
      DBEnv.open_named_db name flags st dbi =
        (.error (.io (.custom .invalidInput "Invalid database name")), [])) ∧
    (name.contains 0 = false →
      (DBEnv.open_named_db name flags st dbi).2 =
        [EngineCall.dbiOpen (some name) (flags.getD DBFlags.defaultBits)]) := by
  constructor
  · intro h
    have h' : 0 ∈ name := by simpa using h
    simp [DBEnv.open_named_db, DBEnv.open_db_internal, cstringNew, h']
  · intro h
    have h' : 0 ∉ name := by simpa using h
    simp only [DBEnv.open_named_db, DBEnv.open_db_internal, cstringNew,
      if_neg h']
    cases LMDBError.from_mdb_error st <;> simp [h']

/-- Witness for C5: both branches at concrete names. -/
theorem open_named_db_null_check_witness :
    (DBEnv.open_named_db [72, 0, 105] none 0 3 =
      (.error (.io (.custom .invalidInput "Invalid database name")), [])) ∧
    ((DBEnv.open_named_db [72, 105] none 0 3).2 =
      [EngineCall.dbiOpen (some [72, 105]) DBFlags.defaultBits]) :=
  ⟨(open_named_db_null_check [72, 0, 105] none 0 3).1 (by decide),
   by
    have h := (open_named_db_null_check [72, 105] none 0 3).2 (by decide)
    simpa using h⟩

/-- C6: when the engine reports success from `mdb_env_create` but writes
a null handle, `DBEnvBuilder::open` stops with the defensive error, and
likewise `Transaction::new` for `mdb_txn_begin`; both defensive errors
are custom-message I/O values, distinct from every engine-status error
and from every I/O error wrapping a raw OS code. -/
theorem null_handle_defensive_error :
    (∀ (b : DBEnvBuilder) (flags : Option Nat) (eng : EnvOracle),
      b.db_path.contains 0 = false → eng.createStatus = 0 →
      eng.createdPtr = 0 →
      (DBEnvBuilder.open b flags eng).1 =
        .error (.io (.custom .other
          "mdb_env_create succeeded but returned a null environment pointer"))) ∧
    (∀ (parentPtr : Nat) (tt : TransactionType) (st : Int),
      st = 0 →
      (Transaction.new parentPtr tt st 0).1 =
        .error (.io (.custom .other
          "mdb_txn_begin succeeded but returned a null transaction pointer"))) ∧
    (∀ (k : IoErrorKind) (m : String) (e : MDBError),
      LMDBError.io (.custom k m) ≠ .mdb e) ∧
    (∀ (k : IoErrorKind) (m : String) (c : Int),
      LMDBError.io (.custom k m) ≠ .io (.osCode c)) := by
  refine ⟨?_, ?_, ?_, ?_⟩
  · intro b flags eng hpath hcs hptr
    have h' : 0 ∉ b.db_path := by simpa using hpath
    simp [DBEnvBuilder.open, cstringNew, h', hcs, hptr,
      LMDBError.from_mdb_error, MDB_SUCCESS]
  · intro parentPtr tt st hst
    cases tt <;>
      simp [Transaction.new, hst, LMDBError.from_mdb_error, MDB_SUCCESS]
  · intro k m e h
    exact LMDBError.noConfusion h
  · intro k m c h
    exact IoError.noConfusion (LMDBError.io.injEq _ _ ▸ h)

/-- Witness for C6: a concrete builder whose oracle reports success with
a null pointer, and a concrete `Transaction::new` with a null pointer. -/
theorem null_handle_defensive_error_witness :
    ((DBEnvBuilder.new [100]).open none ⟨0, 0, 0, 0, 0, 0⟩).1 =
      .error (.io (.custom .other
        "mdb_env_create succeeded but returned a null environment pointer")) ∧
    (Transaction.new 0 .readWrite 0 0).1 =
      .error (.io (.custom .other
        "mdb_txn_begin succeeded but returned a null transaction pointer")) :=
  ⟨null_handle_defensive_error.1 (DBEnvBuilder.new [100]) none
      ⟨0, 0, 0, 0, 0, 0⟩ (by decide) rfl rfl,
   null_handle_defensive_error.2.1 0 .readWrite 0 rfl⟩

/-- C7: in every successful run of `DBEnvBuilder::open`, the engine calls
occur in order: `mdb_env_create` first, then `mdb_env_set_mapsize`,
`mdb_env_set_maxreaders` and `mdb_env_set_maxdbs` exactly when the
corresponding builder option was set, then `mdb_env_open` last — no
configuration call after the open call. -/
theorem open_call_order (b : DBEnvBuilder) (flags : Option Nat)
    (eng : EnvOracle) (envPtr : Nat)
    (h : (DBEnvBuilder.open b flags eng).1 = .ok envPtr) :
    (DBEnvBuilder.open b flags eng).2 =
      [EngineCall.envCreate] ++
      (match b.map_size with
       | some sz => [EngineCall.envSetMapsize sz]
       | none => []) ++
      (match b.max_readers with
       | some n => [EngineCall.envSetMaxreaders (n % 2 ^ 32)]
       | none => []) ++
      (match b.max_dbs with
       | some n => [EngineCall.envSetMaxdbs (n % 2 ^ 32)]
       | none => []) ++
      [EngineCall.envOpen b.db_path (flags.getD EnvFlags.defaultBits)
        (b.file_mode.getD 0o644)] := by
  by_cases hng : 0 ∈ b.db_path
  · simp [DBEnvBuilder.open, cstringNew, hng] at h
  · by_cases hptr : eng.createdPtr = 0 <;>
    cases h1 : LMDBError.from_mdb_error eng.createStatus <;>
    cases hms : b.map_size <;>
    cases hmr : b.max_readers <;>
    cases hmd : b.max_dbs <;>
    cases h2 : LMDBError.from_mdb_error eng.mapsizeStatus <;>
    cases h3 : LMDBError.from_mdb_error eng.maxreadersStatus <;>
    cases h4 : LMDBError.from_mdb_error eng.maxdbsStatus <;>
    cases h5 : LMDBError.from_mdb_error eng.openStatus <;>
    simp_all [DBEnvBuilder.open, cstringNew]

/-- Witness for C7: a fully configured builder whose oracle reports
success everywhere runs create, the three configuration calls, then
open. -/
theorem open_call_order_witness :
    ((((DBEnvBuilder.new [100]).set_map_size 4096).set_max_readers
        10).set_max_dbs 5).open none ⟨0, 1, 0, 0, 0, 0⟩ =
      (.ok 1,
       [EngineCall.envCreate, EngineCall.envSetMapsize 4096,
        EngineCall.envSetMaxreaders 10, EngineCall.envSetMaxdbs 5,
        EngineCall.envOpen [100] EnvFlags.defaultBits 0o644]) := by
  have h : (((((DBEnvBuilder.new [100]).set_map_size 4096).set_max_readers
      10).set_max_dbs 5).open none ⟨0, 1, 0, 0, 0, 0⟩).1 = .ok 1 := rfl
  have ht := open_call_order
    ((((DBEnvBuilder.new [100]).set_map_size 4096).set_max_readers
      10).set_max_dbs 5) none ⟨0, 1, 0, 0, 0, 0⟩ 1 h
  have h2 : (((((DBEnvBuilder.new [100]).set_map_size 4096).set_max_readers
      10).set_max_dbs 5).open none ⟨0, 1, 0, 0, 0, 0⟩) =
      ((((((DBEnvBuilder.new [100]).set_map_size 4096).set_max_readers
        10).set_max_dbs 5).open none ⟨0, 1, 0, 0, 0, 0⟩).1,
       ((((((DBEnvBuilder.new [100]).set_map_size 4096).set_max_readers
        10).set_max_dbs 5).open none ⟨0, 1, 0, 0, 0, 0⟩)).2) := rfl
  rw [h2, h, ht]
  simp [DBEnvBuilder.new, DBEnvBuilder.set_map_size,
    DBEnvBuilder.set_max_readers, DBEnvBuilder.set_max_dbs]

/-- C8: a value put then committed is returned exactly by a get on the
same key in a fresh transaction: the put's engine call carries the
encoded bytes, the engine (modelled from the spec) stores them, commit
folds them into the committed store, and the fresh transaction's get
decodes them back to the original value. -/
theorem put_commit_get_roundtrip (tt : TransactionType)
    (committed txnW : Store) (dbi : Nat) (key value : List Nat)
    (flags : Option Nat) :
    (Transaction.put tt dbi key value flags MDB_SUCCESS).1 = .ok () ∧
    (Transaction.get (fun b => b) dbi key
        (engineGetReply
          (commitStore
            (applyPutCalls txnW
              (Transaction.put tt dbi key value flags MDB_SUCCESS).2)
            committed)
          dbi key)).1 = .ok (some value) := by
  constructor
  · rfl
  · simp [Transaction.put, Transaction.get, applyPutCalls, storePut,
      commitStore, engineGetReply, storeLookup, List.find?,
      LMDBError.from_mdb_error, MDB_SUCCESS]

/-- C9: `Transaction::abort` returns no failure value to the caller — its
result is the unit value for every transaction state — while consuming
the transaction (the subsequent drop glue adds no further engine call)
and issuing exactly one engine abort on the handle. -/
theorem abort_no_error_channel (t : TxnRun) :
    (Transaction.abort t).2 = () ∧
    (Transaction.dropGlue (Transaction.abort t).1).trace =
      t.trace ++ [EngineCall.txnAbortCall t.ptr] := by
  constructor
  · rfl
  · simp [Transaction.abort, Transaction.dropGlue]

/-- C10: `put` with `flags = None` is the same engine call as `put` with
`flags = Some(PutFlags::empty())`: the default flag set is empty and the
flag word passed to the engine is zero. -/
theorem put_default_flags_empty (tt : TransactionType) (dbi : Nat)
    (key value : List Nat) (st : Int) :
    Transaction.put tt dbi key value none st =
      Transaction.put tt dbi key value (some PutFlags.emptyBits) st ∧
    (Transaction.put tt dbi key value none st).2 =
      [EngineCall.putCall dbi key value 0] :=
  ⟨rfl, rfl⟩

end Rlmdb
